import Mathlib

/-!
Verification of the HealthyCity two-tier application (FastAPI backend
`main.py`, Streamlit dashboard `app.py`, legacy helper `gee_data.py`)
against its natural-language specification.

The backend endpoints are embedded as pure functions of the request plus
explicit inputs standing for the two external collaborators:

* the OpenWeatherMap geocoder, modelled as a `GeoResponse` (HTTP status and
  decoded result list) handed to `get_city_coords`;
* Google Earth Engine, modelled as an `EEOutcome` that either raises
  (`exn`, caught by the endpoint's generic `except` clause) or delivers the
  list of valid pixel values of the 2 km region, over which the requested
  band expression and mean reduction are computed exactly as the endpoint's
  EE pipeline specifies them.

Machine floats are modelled as exact rationals (`ℚ`). The Streamlit script
`app.py` is embedded as one run function from the previous session state
and the run's inputs (form submission, radio selection, network outcome) to
the next session state, a flag recording whether a network call was issued,
and the rendered page.
-/

/-- Error raised by an endpoint, mirroring FastAPI's `HTTPException`
(`status_code`, `detail`). -/
structure HTTPError where
  status_code : Nat
  detail : String
deriving Repr, DecidableEq

/-- A coordinate pair as returned inside a response body
(`{"lat": lat, "lon": lon}`). -/
structure Location where
  lat : ℚ
  lon : ℚ
deriving Repr, DecidableEq

/-- Server environment, from `main.py` lines 12-13: the two `os.getenv`
reads (`None` when the variable is absent). -/
structure Env where
  openweather_api_key : Option String
  google_cloud_project : Option String
deriving Repr, DecidableEq

/-- Python truthiness of an optional string: `None` and `""` are falsy.
Used by `if not OPENWEATHER_API_KEY` / `if not GOOGLE_CLOUD_PROJECT`. -/
def truthy : Option String → Bool
  | none => false
  | some s => !(s == "")

/-- One decoded geocoder hit: `data[i]["lat"]`, `data[i]["lon"]`. -/
structure GeoResult where
  lat : ℚ
  lon : ℚ
deriving Repr, DecidableEq

/-- The geocoding collaborator's answer as seen by `get_city_coords`:
the HTTP status of `requests.get(geo_url)` and the decoded JSON list. -/
structure GeoResponse where
  status_code : Nat
  data : List GeoResult
deriving Repr, DecidableEq

/-- Earth Engine collaborator outcome for one endpoint call: either the
client library raises (any exception, caught by the endpoint's generic
`except Exception` clause) or it delivers data of type `α`. -/
inductive EEOutcome (α : Type) where
  | ok (val : α)
  | exn (msg : String)
deriving Repr, DecidableEq

/-- Embeds `get_city_coords` (`main.py` lines 41-54): 500 when the
OpenWeatherMap key is unconfigured, 500 when the geocoder transport
fails (non-200 status), 404 naming the city when the result list is
empty, otherwise the first hit's `(lat, lon)`. -/
def get_city_coords (env : Env) (geo : GeoResponse) (city_name : String) :
    Except HTTPError (ℚ × ℚ) :=
  if truthy env.openweather_api_key = false then
    .error ⟨500, "OpenWeatherMap API key is not configured on the server."⟩
  else if geo.status_code ≠ 200 then
    .error ⟨500, "Failed to connect to Geocoding service."⟩
  else
    match geo.data with
    | [] => .error ⟨404, "City '" ++ city_name ++ "' not found."⟩
    | r :: _ => .ok (r.lat, r.lon)

/-- One valid Sentinel-2 pixel of the region: reflectance bands B8 (NIR)
and B4 (Red), the inputs of `image.normalizedDifference(['B8', 'B4'])`. -/
structure Band2 where
  b8 : ℚ
  b4 : ℚ
deriving Repr, DecidableEq

/-- Per-pixel NDVI, `(NIR - Red) / (NIR + Red)`, as computed by
`normalizedDifference(['B8', 'B4'])` in `get_green_cover`. -/
def ndvi (p : Band2) : ℚ := (p.b8 - p.b4) / (p.b8 + p.b4)

/-- Mean of a list of rationals (0 on the empty list, which `reduceMean`
never exposes). -/
def meanQ (xs : List ℚ) : ℚ := xs.sum / (xs.length : ℚ)

/-- `reduceRegion(reducer=ee.Reducer.mean(), ...)` followed by
`stats.get(band).getInfo()`: `None` when the region has no valid pixels,
otherwise the mean of the per-pixel values. -/
def reduceMean (xs : List ℚ) : Option ℚ :=
  if xs.isEmpty then none else some (meanQ xs)

/-- Landsat scale factor `0.00341802` as an exact rational. -/
def lstScale : ℚ := 341802 / 100000000

/-- Per-pixel LST pipeline of `get_heat_map` (`main.py` lines 136-140):
`.multiply(0.00341802).add(149.0).subtract(273.15)` applied to a raw
`ST_B10` thermal count. -/
def lstTransform (v : ℚ) : ℚ := v * lstScale + 149 - 27315 / 100

/-- Python `str.title()` on an ASCII character: uppercase a letter that
starts a word, lowercase a letter inside a word, leave non-letters. -/
def isUpperA (c : Char) : Bool := 65 ≤ c.toNat && c.toNat ≤ 90

/-- ASCII lowercase letter test (codepoints 97-122). -/
def isLowerA (c : Char) : Bool := 97 ≤ c.toNat && c.toNat ≤ 122

/-- ASCII letter test. -/
def isAlphaA (c : Char) : Bool := isUpperA c || isLowerA c

/-- ASCII lowercase map (uppercase letters shift by +32, rest unchanged). -/
def toLowerA (c : Char) : Char :=
  if isUpperA c then Char.ofNat (c.toNat + 32) else c

/-- ASCII uppercase map (lowercase letters shift by -32, rest unchanged). -/
def toUpperA (c : Char) : Char :=
  if isLowerA c then Char.ofNat (c.toNat - 32) else c

/-- One character of `str.title()`: `prevAlpha` says whether the previous
character was a letter (word-internal position). -/
def titleChar (prevAlpha : Bool) (c : Char) : Char :=
  if isAlphaA c then (if prevAlpha then toLowerA c else toUpperA c) else c

/-- Recursive worker of `title` over the character list: the flag carries
whether the previous character was a letter. -/
def titleGo : Bool → List Char → List Char
  | _, [] => []
  | prev, c :: cs => titleChar prev c :: titleGo (isAlphaA c) cs

/-- Python `city.title()` (ASCII fragment): capitalize the first letter of
every maximal letter run, lowercase the rest. -/
def title (s : String) : String := ⟨titleGo false s.data⟩

/-- Green-cover success body (`main.py` lines 103-109). -/
structure GreenResult where
  city : String
  location : Location
  avg_ndvi : ℚ
  green_cover_percentage : ℚ
  data_source : String
deriving Repr, DecidableEq

/-- Heat-map success body (`main.py` lines 153-158). -/
structure HeatResult where
  city : String
  location : Location
  avg_lst_celsius : ℚ
  data_source : String
deriving Repr, DecidableEq

/-- Embeds `GET /city/{city}/green` (`main.py` lines 64-113). Geocodes the
city, then (unless the EE collaborator raises, which the generic `except`
turns into a 500) reduces the region's per-pixel NDVI to its mean; a `None`
reduction is a 404, otherwise the response body is assembled with
`green_cover_percentage = (avg_ndvi + 1) * 50`. -/
def get_green_cover (env : Env) (geo : GeoResponse)
    (ee : EEOutcome (List Band2)) (city : String) :
    Except HTTPError GreenResult :=
  match get_city_coords env geo city with
  | .error e => .error e
  | .ok (lat, lon) =>
    match ee with
    | .exn msg =>
        .error ⟨500, "An error occurred with Google Earth Engine: " ++ msg⟩
    | .ok pixels =>
      match reduceMean (pixels.map ndvi) with
      | none =>
          .error ⟨404, "Could not compute NDVI for " ++ city ++
            ". No clear satellite imagery might be available."⟩
      | some avg =>
          .ok { city := title city
                location := ⟨lat, lon⟩
                avg_ndvi := avg
                green_cover_percentage := (avg + 1) * 50
                data_source := "Copernicus Sentinel-2" }

/-- Embeds `GET /city/{city}/heatmap` (`main.py` lines 116-162). Geocodes
the city, then reduces the per-pixel `lstTransform` of the raw `ST_B10`
band to its mean; a `None` reduction is a 404, otherwise the body carries
`avg_lst_celsius`. -/
def get_heat_map (env : Env) (geo : GeoResponse)
    (ee : EEOutcome (List ℚ)) (city : String) :
    Except HTTPError HeatResult :=
  match get_city_coords env geo city with
  | .error e => .error e
  | .ok (lat, lon) =>
    match ee with
    | .exn msg =>
        .error ⟨500, "An error occurred with Google Earth Engine: " ++ msg⟩
    | .ok pixels =>
      match reduceMean (pixels.map lstTransform) with
      | none =>
          .error ⟨404, "Could not compute LST for " ++ city ++
            ". No clear satellite imagery might be available."⟩
      | some avg =>
          .ok { city := title city
                location := ⟨lat, lon⟩
                avg_lst_celsius := avg
                data_source := "USGS Landsat 8" }

/-- Module init of `main.py` (lines 28-36): `ee.Initialize(project=...)`
is reached only when `GOOGLE_CLOUD_PROJECT` is truthy; any failure is
printed and swallowed, so the server keeps running either way.
`ok` stands for whether the `ee.Initialize` call itself succeeded. -/
def ee_ready (env : Env) (ok : Bool) : Bool :=
  truthy env.google_cloud_project && ok

/-- Scalar transform of the legacy helper `get_heatmap` in `gee_data.py`
(lines 8-17): the sampled MODIS LST value divided by 10
(`{"avg_temp": lst/10}`). -/
def get_heatmap_avg_temp (lst : ℚ) : ℚ := lst / 10

/-- Backend address hard-coded in `app.py` line 15. -/
def API_BASE_URL : String := "http://127.0.0.1:8000"

/-- Response body as the dashboard consumes it: the only key the state
logic reads is `data.get("location")`; the metric keys are read only by
the display widgets, with defaults, and are not modelled. -/
structure RespBody where
  location : Option Location
deriving Repr, DecidableEq

/-- Outcome of the one `requests.get(url, timeout=120)` of
`get_city_data`: connection refused, timeout, an error-status response
(for which `raise_for_status` raises, carrying the decoded `detail` field
when the error body has one), a 2xx response whose body fails to decode
(`response.json()` raises a `JSONDecodeError`, a `RequestException`), or
a 2xx response with a decoded body. -/
inductive NetOutcome where
  | connError
  | timeout
  | httpError (status : Nat) (detail : Option String)
  | malformed (msg : String)
  | okBody (body : RespBody)
deriving Repr, DecidableEq

/-- Categories the dashboard treats as a failed fetch. -/
def NetOutcome.isFailure : NetOutcome → Bool
  | .connError | .timeout | .httpError _ _ | .malformed _ => true
  | .okBody _ => false

/-- Value of `get_city_data`: a dict with an `"error"` key or the decoded
response body. -/
inductive ClientData where
  | err (msg : String)
  | ok (body : RespBody)
deriving Repr, DecidableEq

/-- The `endpoint_map` dict of `get_city_data` (`app.py` lines 24-27) via
`.get`: `None` for any selection other than the two supported ones. -/
def endpoint_map (analysis_type : String) : Option String :=
  if analysis_type = "Green Cover" then some "green"
  else if analysis_type = "Heat Map" then some "heatmap"
  else none

/-- Python `str(e)` for a `raise_for_status` error, used when the error
body carries no `detail` field. -/
def httpErrStr (status : Nat) : String := toString status ++ " Error"

/-- Embeds `get_city_data` (`app.py` lines 19-46). Returns whether a
network call was issued together with the dict the caller receives: an
unsupported analysis type short-circuits to an error dict before any
request; otherwise the single request's outcome is mapped to the decoded
body or to one of the handler's error strings. -/
def get_city_data (city analysis_type : String) (net : NetOutcome) :
    Bool × ClientData :=
  match endpoint_map analysis_type with
  | none => (false, .err "Invalid analysis type selected.")
  | some _ =>
    (true,
      match net with
      | .connError =>
          .err ("Connection Error: Could not connect to the backend at " ++
            API_BASE_URL ++ ". Please ensure the server is running.")
      | .timeout =>
          .err ("The request to the backend timed out. " ++
            "The server might be busy or the request is complex.")
      | .httpError status detail =>
          .err ("API Error: " ++ detail.getD (httpErrStr status))
      | .malformed msg => .err ("API Error: " ++ msg)
      | .okBody body => .ok body)

/-- The five `st.session_state` fields of `app.py` (lines 51-60). -/
structure SessionState where
  city : String
  analysis_type : String
  map_data : Option Location
  metrics : Option RespBody
  error : Option String
deriving Repr, DecidableEq

/-- Initial session state (`app.py` lines 51-60). -/
def initState : SessionState :=
  { city := "", analysis_type := "Green Cover",
    map_data := none, metrics := none, error := none }

/-- Inputs of one script run: whether the form was submitted, the text
field's content, the radio selection, and the network outcome the run
would observe if it fetched. -/
structure RunInput where
  submitted : Bool
  city_input : String
  radio : String
  net : NetOutcome
deriving Repr, DecidableEq

/-- What one run renders on the main page: the placeholder page
(header plus "under construction" warning, then `st.stop()`) for an
unsupported selection, or the dashboard with its optional error banner and
the metrics/map panels (shown, or their "no data" placeholders). -/
inductive Page where
  | underConstruction (kind : String)
  | dashboard (banner : Option String) (metricsShown : Bool) (mapShown : Bool)
deriving Repr, DecidableEq

/-- Main-page rendering (`app.py` lines 99-160): unsupported selections
stop at the placeholder; otherwise the error banner is rendered when set,
and each panel shows data exactly when its state field is set. -/
def render (s : SessionState) : Page :=
  if s.analysis_type = "Green Cover" ∨ s.analysis_type = "Heat Map" then
    Page.dashboard s.error s.metrics.isSome s.map_data.isSome
  else Page.underConstruction s.analysis_type

/-- Result of one script run. -/
structure RunResult where
  state : SessionState
  networkCalled : Bool
  page : Page
deriving Repr, DecidableEq

/-- One Streamlit script run of `app.py`: the radio assignment (line 75),
the fetch block (lines 82-96, guarded by `if submitted and city_input:`,
which clears old data, fetches, and stores either the error string or the
body plus its location), then the main-page render. -/
def run (s : SessionState) (i : RunInput) : RunResult :=
  let s0 := { s with analysis_type := i.radio }
  if i.submitted && !(i.city_input == "") then
    let s1 := { s0 with city := i.city_input,
                        map_data := none, metrics := none, error := none }
    let fetched := get_city_data i.city_input s0.analysis_type i.net
    let s2 := match fetched.2 with
      | .err m => { s1 with error := some m }
      | .ok body => { s1 with metrics := some body, map_data := body.location }
    ⟨s2, fetched.1, render s2⟩
  else ⟨s0, false, render s0⟩

/-- Demo environment with both variables configured. -/
def demoEnv : Env :=
  { openweather_api_key := some "k", google_cloud_project := some "p" }

/-- Demo environment with both variables absent. -/
def bareEnv : Env := { openweather_api_key := none, google_cloud_project := none }

/-- Demo environment with the key configured but no cloud project. -/
def keyOnlyEnv : Env :=
  { openweather_api_key := some "k", google_cloud_project := none }

/-- Demo geocoder answer: one hit at Paris (48.8566, 2.3522). -/
def demoGeo : GeoResponse :=
  { status_code := 200, data := [⟨4888566 / 100000, 23522 / 10000⟩] }

/-- Demo geocoder answer with an empty result list. -/
def emptyGeo : GeoResponse := { status_code := 200, data := [] }

/-- One demo Sentinel-2 pixel whose NDVI is (27-13)/(27+13) = 0.35. -/
def demoGreenPixels : List Band2 := [⟨27, 13⟩]

/-- One demo raw ST_B10 thermal count. -/
def demoHeatPixels : List ℚ := [40000]

/-- The reduced NDVI of the demo region (equals 7/20 = 0.35). -/
def demoAvgNdvi : ℚ := meanQ (demoGreenPixels.map ndvi)

/-- The reduced LST of the demo region
(equals 40000 * 0.00341802 + 149 - 273.15 = 12.5708). -/
def demoAvgLst : ℚ := meanQ (demoHeatPixels.map lstTransform)

/-- The green-cover body produced for the demo inputs. -/
def demoGreenResult : GreenResult :=
  { city := "Paris", location := ⟨4888566 / 100000, 23522 / 10000⟩,
    avg_ndvi := demoAvgNdvi, green_cover_percentage := (demoAvgNdvi + 1) * 50,
    data_source := "Copernicus Sentinel-2" }

/-- The heat-map body produced for the demo inputs. -/
def demoHeatResult : HeatResult :=
  { city := "Paris", location := ⟨4888566 / 100000, 23522 / 10000⟩,
    avg_lst_celsius := demoAvgLst, data_source := "USGS Landsat 8" }

/-- Demo session state holding a previous successful result. -/
def demoFullState : SessionState :=
  { city := "Paris", analysis_type := "Green Cover",
    map_data := some ⟨4888566 / 100000, 23522 / 10000⟩,
    metrics := some { location := some ⟨4888566 / 100000, 23522 / 10000⟩ },
    error := none }

/-! ## Helper lemmas -/

theorem char_toNat_inj {c d : Char} (h : c.toNat = d.toNat) : c = d := by
  apply Char.ext
  exact UInt32.ext h

theorem toNat_ofNat_valid (n : Nat) (h : n < 55296) : (Char.ofNat n).toNat = n := by
  have hv : n.isValidChar := Or.inl h
  simp only [Char.ofNat, hv, dif_pos, Char.ofNatAux, Char.toNat]
  rfl

/-- Asymmetric half of `toLowerA_case_data`: an uppercase `c` whose
lowercase image is a fixed point `d` of `toLowerA`. -/
theorem toLowerA_case_data_aux {c d : Char} (hcu : isUpperA c = true)
    (hdu : isUpperA d = false) (h : toLowerA c = toLowerA d) :
    isAlphaA c = isAlphaA d ∧ toUpperA c = toUpperA d := by
  have hc := hcu
  simp only [isUpperA, Bool.and_eq_true, decide_eq_true_eq] at hc
  simp only [toLowerA, hcu, hdu, if_true, if_false, Bool.false_eq_true] at h
  have hdn : d.toNat = c.toNat + 32 := by
    rw [← h]
    exact toNat_ofNat_valid _ (by omega)
  have hdl : isLowerA d = true := by
    simp only [isLowerA, Bool.and_eq_true, decide_eq_true_eq]
    omega
  have hcl : isLowerA c = false := by
    simp only [isLowerA]
    simp only [Bool.and_eq_false_iff, decide_eq_false_iff_not]
    omega
  constructor
  · simp [isAlphaA, hcu, hdu, hdl]
  · simp only [toUpperA, hcl, hdl, if_true, if_false, Bool.false_eq_true]
    rw [hdn]
    simp [Char.ofNat_toNat]

/-- Characters with the same ASCII-lowercase image agree on letterhood and
on their ASCII-uppercase image. -/
theorem toLowerA_case_data {c d : Char} (h : toLowerA c = toLowerA d) :
    isAlphaA c = isAlphaA d ∧ toUpperA c = toUpperA d := by
  by_cases hcu : isUpperA c = true <;> by_cases hdu : isUpperA d = true
  · -- both uppercase letters: the +32 shifts are injective on this range
    have hc := hcu; have hd := hdu
    simp only [isUpperA, Bool.and_eq_true, decide_eq_true_eq] at hc hd
    have hcd : c = d := by
      apply char_toNat_inj
      have h1 : (Char.ofNat (c.toNat + 32)).toNat = c.toNat + 32 :=
        toNat_ofNat_valid _ (by omega)
      have h2 : (Char.ofNat (d.toNat + 32)).toNat = d.toNat + 32 :=
        toNat_ofNat_valid _ (by omega)
      simp only [toLowerA, hcu, hdu, if_true] at h
      rw [h] at h1
      omega
    subst hcd
    exact ⟨rfl, rfl⟩
  · exact toLowerA_case_data_aux hcu (Bool.eq_false_iff.mpr hdu) h
  · have hr :=
      toLowerA_case_data_aux hdu (Bool.eq_false_iff.mpr hcu) h.symm
    exact ⟨hr.1.symm, hr.2.symm⟩
  · -- neither uppercase: toLowerA fixes both, so they are equal
    simp only [toLowerA, hcu, hdu, if_false, Bool.false_eq_true] at h
    subst h
    exact ⟨rfl, rfl⟩

/-- The `title` worker is invariant under changing only the letter case of
its input. -/
theorem titleGo_case_eq (b : Bool) (l1 l2 : List Char)
    (h : l1.map toLowerA = l2.map toLowerA) : titleGo b l1 = titleGo b l2 := by
  induction l1 generalizing b l2 with
  | nil =>
    cases l2 with
    | nil => rfl
    | cons d ds => simp at h
  | cons c cs ih =>
    cases l2 with
    | nil => simp at h
    | cons d ds =>
      simp only [List.map_cons, List.cons.injEq] at h
      obtain ⟨hcd, hrest⟩ := h
      obtain ⟨ha, hu⟩ := toLowerA_case_data hcd
      have hchar : titleChar b c = titleChar b d := by
        unfold titleChar
        by_cases hac : isAlphaA c = true
        · rw [hac] at ha
          simp only [hac, ← ha, if_true]
          cases b with
          | true => simpa using hcd
          | false => simpa using hu
        · have hacf : isAlphaA c = false := Bool.eq_false_iff.mpr hac
          have hcup : isUpperA c = false := by
            have := hacf
            simp only [isAlphaA, Bool.or_eq_false_iff] at this
            exact this.1
          have hadf : isAlphaA d = false := by rw [← ha]; exact hacf
          have hdup : isUpperA d = false := by
            have := hadf
            simp only [isAlphaA, Bool.or_eq_false_iff] at this
            exact this.1
          have hlc : toLowerA c = c := by simp [toLowerA, hcup]
          have hld : toLowerA d = d := by simp [toLowerA, hdup]
          rw [hlc, hld] at hcd
          simp only [hacf, hadf, hcd, if_false, Bool.false_eq_true]
      simp only [titleGo, hchar, ha, ih (isAlphaA d) ds hrest]

/-- Python `title()` is invariant under changing only the letter case of
its input. -/
theorem title_case_eq (s t : String)
    (h : s.data.map toLowerA = t.data.map toLowerA) : title s = title t :=
  congrArg String.mk (titleGo_case_eq false s.data t.data h)

theorem sum_map_affine (a b : ℚ) (xs : List ℚ) :
    (xs.map fun v => v * a + b).sum = xs.sum * a + xs.length * b := by
  induction xs with
  | nil => simp
  | cons x xs ih =>
    simp only [List.map_cons, List.sum_cons, ih, List.length_cons]
    push_cast
    ring

/-- The mean commutes with an affine per-element transform on a nonempty
list: this is why reducing the transformed band and transforming the
reduced raw band agree. -/
theorem meanQ_map_affine (a b : ℚ) (xs : List ℚ) (hne : xs ≠ []) :
    meanQ (xs.map fun v => v * a + b) = meanQ xs * a + b := by
  have hlen : (xs.length : ℚ) ≠ 0 := by
    have := List.length_pos.mpr hne
    positivity
  unfold meanQ
  rw [List.length_map, sum_map_affine]
  field_simp
  ring

/-- `lstTransform` written with its affine constants gathered. -/
theorem lstTransform_affine :
    lstTransform = fun v => v * lstScale + (149 - 27315 / 100) := by
  funext v
  unfold lstTransform
  ring

/-- Anatomy of a successful green-cover response: the geocode succeeded,
the EE collaborator delivered pixels, their NDVI mean existed, and the
body is exactly the record built on line 103-109 of `main.py`. -/
theorem green_ok_elim {env : Env} {geo : GeoResponse}
    {ee : EEOutcome (List Band2)} {city : String} {r : GreenResult}
    (h : get_green_cover env geo ee city = .ok r) :
    ∃ lat lon pixels avg,
      get_city_coords env geo city = .ok (lat, lon) ∧
      ee = EEOutcome.ok pixels ∧
      reduceMean (pixels.map ndvi) = some avg ∧
      r = { city := title city, location := ⟨lat, lon⟩, avg_ndvi := avg,
            green_cover_percentage := (avg + 1) * 50,
            data_source := "Copernicus Sentinel-2" } := by
  unfold get_green_cover at h
  rcases hcc : get_city_coords env geo city with e | ⟨lat, lon⟩ <;>
    rw [hcc] at h <;> dsimp only at h
  · exact absurd h (by simp)
  · cases ee with
    | exn m => exact absurd h (by simp)
    | ok pixels =>
      dsimp only at h
      rcases hm : reduceMean (pixels.map ndvi) with _ | avg <;>
        rw [hm] at h <;> dsimp only at h
      · exact absurd h (by simp)
      · simp only [Except.ok.injEq] at h
        exact ⟨lat, lon, pixels, avg, rfl, rfl, hm, h.symm⟩

/-- Anatomy of a successful heat-map response. -/
theorem heat_ok_elim {env : Env} {geo : GeoResponse}
    {ee : EEOutcome (List ℚ)} {city : String} {r : HeatResult}
    (h : get_heat_map env geo ee city = .ok r) :
    ∃ lat lon pixels avg,
      get_city_coords env geo city = .ok (lat, lon) ∧
      ee = EEOutcome.ok pixels ∧
      reduceMean (pixels.map lstTransform) = some avg ∧
      r = { city := title city, location := ⟨lat, lon⟩,
            avg_lst_celsius := avg, data_source := "USGS Landsat 8" } := by
  unfold get_heat_map at h
  rcases hcc : get_city_coords env geo city with e | ⟨lat, lon⟩ <;>
    rw [hcc] at h <;> dsimp only at h
  · exact absurd h (by simp)
  · cases ee with
    | exn m => exact absurd h (by simp)
    | ok pixels =>
      dsimp only at h
      rcases hm : reduceMean (pixels.map lstTransform) with _ | avg <;>
        rw [hm] at h <;> dsimp only at h
      · exact absurd h (by simp)
      · simp only [Except.ok.injEq] at h
        exact ⟨lat, lon, pixels, avg, rfl, rfl, hm, h.symm⟩

/-- A geocoding failure propagates unchanged through the green endpoint
(the `except HTTPException` re-raise on line 110-111). -/
theorem green_error_prop {env : Env} {geo : GeoResponse}
    {ee : EEOutcome (List Band2)} {city : String} {e : HTTPError}
    (h : get_city_coords env geo city = .error e) :
    get_green_cover env geo ee city = .error e := by
  unfold get_green_cover
  rw [h]

/-- A geocoding failure propagates unchanged through the heatmap
endpoint. -/
theorem heat_error_prop {env : Env} {geo : GeoResponse}
    {ee : EEOutcome (List ℚ)} {city : String} {e : HTTPError}
    (h : get_city_coords env geo city = .error e) :
    get_heat_map env geo ee city = .error e := by
  unfold get_heat_map
  rw [h]

/-- With an unconfigured OpenWeatherMap key the geocoder helper fails
immediately with the 500 of `main.py` line 43-44. -/
theorem get_city_coords_no_key {env : Env} {geo : GeoResponse}
    {city : String} (hkey : truthy env.openweather_api_key = false) :
    get_city_coords env geo city =
      .error ⟨500, "OpenWeatherMap API key is not configured on the server."⟩ := by
  unfold get_city_coords
  rw [hkey]
  simp

/-- With a configured key, a 200 geocoder transport and an empty result
list, the helper fails with the 404 of `main.py` line 51-52. -/
theorem get_city_coords_empty {env : Env} {geo : GeoResponse} {city : String}
    (hkey : truthy env.openweather_api_key = true)
    (hstatus : geo.status_code = 200) (hempty : geo.data = []) :
    get_city_coords env geo city =
      .error ⟨404, "City '" ++ city ++ "' not found."⟩ := by
  unfold get_city_coords
  rw [hkey, hstatus, hempty]
  simp

/-- An EE exception after a successful geocode becomes the 500 of the
green endpoint's generic handler (`main.py` line 112-113). -/
theorem green_exn_500 {env : Env} {geo : GeoResponse} {city : String}
    {m : String} {lat lon : ℚ}
    (hcc : get_city_coords env geo city = .ok (lat, lon)) :
    get_green_cover env geo (EEOutcome.exn m) city =
      .error ⟨500, "An error occurred with Google Earth Engine: " ++ m⟩ := by
  unfold get_green_cover
  rw [hcc]

/-- An EE exception after a successful geocode becomes the 500 of the
heatmap endpoint's generic handler. -/
theorem heat_exn_500 {env : Env} {geo : GeoResponse} {city : String}
    {m : String} {lat lon : ℚ}
    (hcc : get_city_coords env geo city = .ok (lat, lon)) :
    get_heat_map env geo (EEOutcome.exn m) city =
      .error ⟨500, "An error occurred with Google Earth Engine: " ++ m⟩ := by
  unfold get_heat_map
  rw [hcc]


/-! ## Claim theorems -/

/-- C1: every successful green-cover response satisfies
`green_cover_percentage = (avg_ndvi + 1) * 50`; consequently an `avg_ndvi`
in [-1, 1] puts `green_cover_percentage` in [0, 100], and the round-trip
`avg_ndvi = green_cover_percentage / 50 - 1` holds. -/
theorem green_cover_percentage_spec (env : Env) (geo : GeoResponse)
    (ee : EEOutcome (List Band2)) (city : String) (r : GreenResult)
    (h : get_green_cover env geo ee city = .ok r) :
    r.green_cover_percentage = (r.avg_ndvi + 1) * 50
    ∧ (-1 ≤ r.avg_ndvi → r.avg_ndvi ≤ 1 →
        0 ≤ r.green_cover_percentage ∧ r.green_cover_percentage ≤ 100)
    ∧ r.avg_ndvi = r.green_cover_percentage / 50 - 1 := by
  obtain ⟨lat, lon, pixels, avg, -, -, -, hr⟩ := green_ok_elim h
  subst hr
  refine ⟨rfl, ?_, ?_⟩
  · intro h1 h2
    constructor <;> simp only [] <;> nlinarith
  · simp only []
    field_simp

/-- C1 witness: the demo request succeeds with `avg_ndvi = 0.35`,
`green_cover_percentage = 67.5`, and the claimed relations hold there. -/
theorem green_cover_percentage_spec_witness :
    get_green_cover demoEnv demoGeo (.ok demoGreenPixels) "paris" =
      .ok demoGreenResult
    ∧ demoGreenResult.avg_ndvi = 7 / 20
    ∧ demoGreenResult.green_cover_percentage = 135 / 2
    ∧ (demoGreenResult.green_cover_percentage =
        (demoGreenResult.avg_ndvi + 1) * 50
      ∧ (-1 ≤ demoGreenResult.avg_ndvi → demoGreenResult.avg_ndvi ≤ 1 →
          0 ≤ demoGreenResult.green_cover_percentage ∧
          demoGreenResult.green_cover_percentage ≤ 100)
      ∧ demoGreenResult.avg_ndvi =
          demoGreenResult.green_cover_percentage / 50 - 1) :=
  ⟨rfl,
   by norm_num [demoGreenResult, demoAvgNdvi, meanQ, ndvi, demoGreenPixels],
   by norm_num [demoGreenResult, demoAvgNdvi, meanQ, ndvi, demoGreenPixels],
   green_cover_percentage_spec demoEnv demoGeo (.ok demoGreenPixels) "paris"
     demoGreenResult rfl⟩

/-- C2: whenever the heatmap endpoint succeeds on a delivered pixel list,
the reported `avg_lst_celsius` equals the raw reduced sensor value `v`
(the mean of the region's raw ST_B10 counts) transformed by exactly
`v * 0.00341802 + 149.0 - 273.15`: the affine per-pixel transform commutes
with the mean reduction, so the result is a pure deterministic function of
the reduced raw value. -/
theorem avg_lst_celsius_spec (env : Env) (geo : GeoResponse)
    (pixels : List ℚ) (city : String) (r : HeatResult)
    (h : get_heat_map env geo (.ok pixels) city = .ok r) :
    r.avg_lst_celsius =
      meanQ pixels * (341802 / 100000000) + 149 - 27315 / 100 := by
  obtain ⟨lat, lon, pixels', avg, -, hee, hm, hr⟩ := heat_ok_elim h
  obtain rfl : pixels = pixels' := by injection hee
  subst hr
  have hne : pixels ≠ [] := by
    intro hnil
    rw [hnil] at hm
    simp [reduceMean] at hm
  have havg : avg = meanQ (pixels.map lstTransform) := by
    unfold reduceMean at hm
    rw [if_neg (by simp [hne])] at hm
    injection hm with hm
    exact hm.symm
  simp only []
  rw [havg, lstTransform_affine, meanQ_map_affine _ _ _ hne]
  simp only [lstScale]
  ring

/-- C2 witness: the demo heatmap request succeeds and its
`avg_lst_celsius` is the transform of the raw reduced value 40000
(12.5708 celsius). -/
theorem avg_lst_celsius_spec_witness :
    get_heat_map demoEnv demoGeo (.ok demoHeatPixels) "paris" =
      .ok demoHeatResult
    ∧ demoHeatResult.avg_lst_celsius = 125708 / 10000
    ∧ demoHeatResult.avg_lst_celsius =
        meanQ demoHeatPixels * (341802 / 100000000) + 149 - 27315 / 100 :=
  ⟨rfl,
   by norm_num [demoHeatResult, demoAvgLst, meanQ, lstTransform, lstScale,
     demoHeatPixels],
   avg_lst_celsius_spec demoEnv demoGeo demoHeatPixels "paris"
     demoHeatResult rfl⟩

/-- C8: the legacy helper's divide-by-10 transform and the live heatmap
endpoint's `v * 0.00341802 + 149.0 - 273.15` transform disagree as
functions of the raw value; at `v = 0` the first gives 0 and the second
gives -124.15. -/
theorem heatmap_transforms_inconsistent :
    get_heatmap_avg_temp 0 ≠ lstTransform 0
    ∧ ¬ (∀ v : ℚ, get_heatmap_avg_temp v = lstTransform v) := by
  constructor
  · norm_num [get_heatmap_avg_temp, lstTransform, lstScale]
  · intro hall
    have h0 := hall 0
    norm_num [get_heatmap_avg_temp, lstTransform, lstScale] at h0

/-- C3: for every green or heatmap request, either geocoding and the
remote statistic both succeed and a complete result is returned — with
`location` equal exactly to the geocoder's `(lat, lon)` output, the
title-cased city, and the kind's `data_source` — or the call surfaces an
`HTTPError` instead; in particular a geocoding failure is re-raised
unchanged, and no partially populated body exists. -/
theorem complete_result_or_error (env : Env) (geo : GeoResponse)
    (eg : EEOutcome (List Band2)) (eh : EEOutcome (List ℚ))
    (city : String) :
    (∀ r : GreenResult, get_green_cover env geo eg city = .ok r →
       ∃ lat lon, get_city_coords env geo city = .ok (lat, lon) ∧
         r.location = ⟨lat, lon⟩ ∧ r.city = title city ∧
         r.data_source = "Copernicus Sentinel-2")
    ∧ (∀ r : HeatResult, get_heat_map env geo eh city = .ok r →
       ∃ lat lon, get_city_coords env geo city = .ok (lat, lon) ∧
         r.location = ⟨lat, lon⟩ ∧ r.city = title city ∧
         r.data_source = "USGS Landsat 8")
    ∧ (∀ e : HTTPError, get_city_coords env geo city = .error e →
         get_green_cover env geo eg city = .error e ∧
         get_heat_map env geo eh city = .error e) := by
  refine ⟨?_, ?_, ?_⟩
  · intro r h
    obtain ⟨lat, lon, pixels, avg, hcc, -, -, hr⟩ := green_ok_elim h
    subst hr
    exact ⟨lat, lon, hcc, rfl, rfl, rfl⟩
  · intro r h
    obtain ⟨lat, lon, pixels, avg, hcc, -, -, hr⟩ := heat_ok_elim h
    subst hr
    exact ⟨lat, lon, hcc, rfl, rfl, rfl⟩
  · intro e he
    exact ⟨green_error_prop he, heat_error_prop he⟩

/-- C3 witness: on the demo request the green body's location is exactly
the geocoder's output, and with the geocoder key missing both endpoints
surface that error unchanged. -/
theorem complete_result_or_error_witness :
    (∃ lat lon, get_city_coords demoEnv demoGeo "paris" = .ok (lat, lon) ∧
       demoGreenResult.location = ⟨lat, lon⟩ ∧
       demoGreenResult.city = title "paris" ∧
       demoGreenResult.data_source = "Copernicus Sentinel-2")
    ∧ (get_green_cover bareEnv demoGeo (.ok demoGreenPixels) "paris" =
        .error ⟨500, "OpenWeatherMap API key is not configured on the server."⟩
      ∧ get_heat_map bareEnv demoGeo (.ok demoHeatPixels) "paris" =
        .error ⟨500,
          "OpenWeatherMap API key is not configured on the server."⟩) :=
  ⟨(complete_result_or_error demoEnv demoGeo (.ok demoGreenPixels)
      (.ok demoHeatPixels) "paris").1 demoGreenResult rfl,
   (complete_result_or_error bareEnv demoGeo (.ok demoGreenPixels)
      (.ok demoHeatPixels) "paris").2.2
     ⟨500, "OpenWeatherMap API key is not configured on the server."⟩ rfl⟩

/-- C4: when the geocoding collaborator is reachable but returns an empty
result set (as it does for an empty or unknown city name), both endpoints
respond with the 404 `HTTPError` naming the city, and never with a
success. -/
theorem empty_geocode_not_found (env : Env) (geo : GeoResponse)
    (eg : EEOutcome (List Band2)) (eh : EEOutcome (List ℚ)) (city : String)
    (hkey : truthy env.openweather_api_key = true)
    (hstatus : geo.status_code = 200) (hempty : geo.data = []) :
    get_green_cover env geo eg city =
      .error ⟨404, "City '" ++ city ++ "' not found."⟩
    ∧ get_heat_map env geo eh city =
      .error ⟨404, "City '" ++ city ++ "' not found."⟩
    ∧ (∀ r : GreenResult, get_green_cover env geo eg city ≠ .ok r)
    ∧ (∀ r : HeatResult, get_heat_map env geo eh city ≠ .ok r) := by
  have hcc := @get_city_coords_empty env geo city hkey hstatus hempty
  have hg := @green_error_prop env geo eg city _ hcc
  have hh := @heat_error_prop env geo eh city _ hcc
  exact ⟨hg, hh,
    fun r hr => by rw [hg] at hr; exact Except.noConfusion hr,
    fun r hr => by rw [hh] at hr; exact Except.noConfusion hr⟩

/-- C4 witness: an empty city name whose geocoder lookup returns an empty
result list yields the 404 naming the (empty) city on both endpoints. -/
theorem empty_geocode_not_found_witness :
    get_green_cover demoEnv emptyGeo (.ok demoGreenPixels) "" =
      .error ⟨404, "City '" ++ "" ++ "' not found."⟩
    ∧ get_heat_map demoEnv emptyGeo (.ok demoHeatPixels) "" =
      .error ⟨404, "City '" ++ "" ++ "' not found."⟩
    ∧ (∀ r : GreenResult,
        get_green_cover demoEnv emptyGeo (.ok demoGreenPixels) "" ≠ .ok r)
    ∧ (∀ r : HeatResult,
        get_heat_map demoEnv emptyGeo (.ok demoHeatPixels) "" ≠ .ok r) :=
  empty_geocode_not_found demoEnv emptyGeo (.ok demoGreenPixels)
    (.ok demoHeatPixels) "" rfl rfl rfl

/-- C5: if the geocoding credential or the cloud-project identifier is
missing, no successful analysis response is ever produced: a missing
OpenWeatherMap key fails on first use with the descriptive 500 of
`get_city_coords`, and a missing GOOGLE_CLOUD_PROJECT leaves Earth Engine
uninitialized (`ee_ready` is false for the whole process, the startup
error being printed and swallowed), so every EE call raises and any
request that geocodes successfully fails with the Earth-Engine 500. -/
theorem missing_config_no_success (env : Env) (geo : GeoResponse)
    (eg : EEOutcome (List Band2)) (eh : EEOutcome (List ℚ)) (city : String)
    (hee : (∀ ok : Bool, ee_ready env ok = false) →
      (∃ m, eg = EEOutcome.exn m) ∧ (∃ m, eh = EEOutcome.exn m))
    (hmiss : truthy env.openweather_api_key = false ∨
             truthy env.google_cloud_project = false) :
    (∀ r : GreenResult, get_green_cover env geo eg city ≠ .ok r)
    ∧ (∀ r : HeatResult, get_heat_map env geo eh city ≠ .ok r)
    ∧ (truthy env.openweather_api_key = false →
        get_green_cover env geo eg city =
          .error ⟨500, "OpenWeatherMap API key is not configured on the server."⟩
        ∧ get_heat_map env geo eh city =
          .error ⟨500,
            "OpenWeatherMap API key is not configured on the server."⟩)
    ∧ (truthy env.google_cloud_project = false →
        ∀ lat lon : ℚ, get_city_coords env geo city = .ok (lat, lon) →
          (∃ m, get_green_cover env geo eg city =
            .error ⟨500, "An error occurred with Google Earth Engine: " ++ m⟩)
          ∧ (∃ m, get_heat_map env geo eh city =
            .error ⟨500,
              "An error occurred with Google Earth Engine: " ++ m⟩)) := by
  have hexn : truthy env.google_cloud_project = false →
      (∃ m, eg = EEOutcome.exn m) ∧ (∃ m, eh = EEOutcome.exn m) := by
    intro hproj
    exact hee fun ok => by simp [ee_ready, hproj]
  refine ⟨?_, ?_, ?_, ?_⟩
  · intro r hr
    rcases hmiss with hkey | hproj
    · rw [green_error_prop (get_city_coords_no_key hkey)] at hr
      exact Except.noConfusion hr
    · obtain ⟨⟨m, rfl⟩, -⟩ := hexn hproj
      obtain ⟨-, -, pixels, -, -, hcontra, -⟩ := green_ok_elim hr
      exact EEOutcome.noConfusion hcontra
  · intro r hr
    rcases hmiss with hkey | hproj
    · rw [heat_error_prop (get_city_coords_no_key hkey)] at hr
      exact Except.noConfusion hr
    · obtain ⟨-, ⟨m, rfl⟩⟩ := hexn hproj
      obtain ⟨-, -, pixels, -, -, hcontra, -⟩ := heat_ok_elim hr
      exact EEOutcome.noConfusion hcontra
  · intro hkey
    exact ⟨green_error_prop (get_city_coords_no_key hkey),
           heat_error_prop (get_city_coords_no_key hkey)⟩
  · intro hproj lat lon hcc
    obtain ⟨⟨mg, rfl⟩, ⟨mh, rfl⟩⟩ := hexn hproj
    exact ⟨⟨mg, green_exn_500 hcc⟩, ⟨mh, heat_exn_500 hcc⟩⟩

/-- C5 witness: with both variables missing every request fails with the
descriptive first-use 500; with only the project missing, a request whose
geocode succeeds fails with the Earth-Engine 500. -/
theorem missing_config_no_success_witness :
    ((∀ r : GreenResult,
        get_green_cover bareEnv demoGeo (.exn "ee uninitialized") "paris" ≠
          .ok r)
      ∧ (∀ r : HeatResult,
        get_heat_map bareEnv demoGeo (.exn "ee uninitialized") "paris" ≠
          .ok r)
      ∧ (truthy bareEnv.openweather_api_key = false →
        get_green_cover bareEnv demoGeo (.exn "ee uninitialized") "paris" =
          .error ⟨500, "OpenWeatherMap API key is not configured on the server."⟩
        ∧ get_heat_map bareEnv demoGeo (.exn "ee uninitialized") "paris" =
          .error ⟨500,
            "OpenWeatherMap API key is not configured on the server."⟩))
    ∧ ((∃ m, get_green_cover keyOnlyEnv demoGeo (.exn "ee uninitialized")
          "paris" =
          .error ⟨500, "An error occurred with Google Earth Engine: " ++ m⟩)
      ∧ (∃ m, get_heat_map keyOnlyEnv demoGeo (.exn "ee uninitialized")
          "paris" =
          .error ⟨500,
            "An error occurred with Google Earth Engine: " ++ m⟩)) :=
  ⟨⟨(missing_config_no_success bareEnv demoGeo (.exn "ee uninitialized")
      (.exn "ee uninitialized") "paris"
      (fun _ => ⟨⟨_, rfl⟩, ⟨_, rfl⟩⟩) (Or.inl rfl)).1,
    (missing_config_no_success bareEnv demoGeo (.exn "ee uninitialized")
      (.exn "ee uninitialized") "paris"
      (fun _ => ⟨⟨_, rfl⟩, ⟨_, rfl⟩⟩) (Or.inl rfl)).2.1,
    (missing_config_no_success bareEnv demoGeo (.exn "ee uninitialized")
      (.exn "ee uninitialized") "paris"
      (fun _ => ⟨⟨_, rfl⟩, ⟨_, rfl⟩⟩) (Or.inl rfl)).2.2.1⟩,
   (missing_config_no_success keyOnlyEnv demoGeo (.exn "ee uninitialized")
      (.exn "ee uninitialized") "paris"
      (fun _ => ⟨⟨_, rfl⟩, ⟨_, rfl⟩⟩) (Or.inr rfl)).2.2.2 rfl
      (4888566 / 100000) (23522 / 10000) rfl⟩

/-- C9 (implicit): every successful body's `city` field is the title-cased
city path parameter (`city.title()`), not the verbatim input, and two
inputs differing only in letter case produce the same field. -/
theorem city_field_title_cased (env : Env) (geo : GeoResponse)
    (eg : EEOutcome (List Band2)) (eh : EEOutcome (List ℚ))
    (city city2 : String) (r : GreenResult) (r2 : HeatResult) :
    (get_green_cover env geo eg city = .ok r → r.city = title city)
    ∧ (get_heat_map env geo eh city = .ok r2 → r2.city = title city)
    ∧ (city.data.map toLowerA = city2.data.map toLowerA →
        title city = title city2) := by
  refine ⟨?_, ?_, title_case_eq city city2⟩
  · intro h
    obtain ⟨lat, lon, pixels, avg, -, -, -, hr⟩ := green_ok_elim h
    subst hr
    rfl
  · intro h
    obtain ⟨lat, lon, pixels, avg, -, -, -, hr⟩ := heat_ok_elim h
    subst hr
    rfl

/-- C9 witness: the demo bodies carry `title "paris" = "Paris"`, and the
case-variants "PARIS" and "paris" title-case identically. -/
theorem city_field_title_cased_witness :
    demoGreenResult.city = title "paris"
    ∧ demoHeatResult.city = title "paris"
    ∧ title "PARIS" = title "paris" :=
  ⟨(city_field_title_cased demoEnv demoGeo (.ok demoGreenPixels)
      (.ok demoHeatPixels) "paris" "paris" demoGreenResult
      demoHeatResult).1 rfl,
   (city_field_title_cased demoEnv demoGeo (.ok demoGreenPixels)
      (.ok demoHeatPixels) "paris" "paris" demoGreenResult
      demoHeatResult).2.1 rfl,
   (city_field_title_cased demoEnv demoGeo (.ok demoGreenPixels)
      (.ok demoHeatPixels) "PARIS" "paris" demoGreenResult
      demoHeatResult).2.2 (by decide)⟩

/-- C6: a submission whose selected analysis kind is neither "Green Cover"
nor "Heat Map" never issues a network call (`endpoint_map.get` returns
`None`, short-circuiting `get_city_data` before the request) and the main
page renders the "under construction" placeholder for that kind. -/
theorem unsupported_kind_no_fetch (s : SessionState) (i : RunInput)
    (h1 : i.radio ≠ "Green Cover") (h2 : i.radio ≠ "Heat Map") :
    (run s i).networkCalled = false
    ∧ (run s i).page = Page.underConstruction i.radio := by
  have hmap : endpoint_map i.radio = none := by
    unfold endpoint_map
    rw [if_neg h1, if_neg h2]
  by_cases hc : (i.submitted && !(i.city_input == "")) = true
  · constructor <;>
      simp [run, hc, get_city_data, hmap, render, h1, h2]
  · constructor <;>
      simp [run, hc, render, h1, h2]

/-- C6 witness: submitting "Paris" with kind "Flood Risk" issues no
network call and renders the placeholder. -/
theorem unsupported_kind_no_fetch_witness :
    (run demoFullState
        ⟨true, "Paris", "Flood Risk", NetOutcome.timeout⟩).networkCalled =
      false
    ∧ (run demoFullState
        ⟨true, "Paris", "Flood Risk", NetOutcome.timeout⟩).page =
      Page.underConstruction "Flood Risk" :=
  unsupported_kind_no_fetch demoFullState
    ⟨true, "Paris", "Flood Risk", NetOutcome.timeout⟩
    (by decide) (by decide)

/-- C7: a submission on a supported kind that ends in any failure
(connection refused, timeout, error status, malformed body) stores exactly
one human-readable error message, discards any previous metrics and map
data, and renders the dashboard with the error banner and both panels in
their "no data" placeholder state. -/
theorem failed_fetch_resets (s : SessionState) (i : RunInput)
    (hsub : i.submitted = true) (hcity : i.city_input ≠ "")
    (hkind : i.radio = "Green Cover" ∨ i.radio = "Heat Map")
    (hfail : i.net.isFailure = true) :
    ∃ msg, (run s i).state.error = some msg
      ∧ (run s i).state.metrics = none
      ∧ (run s i).state.map_data = none
      ∧ (run s i).page = Page.dashboard (some msg) false false := by
  obtain ⟨ep, hep⟩ : ∃ ep, endpoint_map i.radio = some ep := by
    rcases hkind with h | h
    · exact ⟨"green", by simp [endpoint_map, h]⟩
    · exact ⟨"heatmap", by simp [endpoint_map, h]⟩
  have hcond : (i.submitted && !(i.city_input == "")) = true := by
    simp [hsub, hcity]
  obtain ⟨m, hm⟩ :
      ∃ m, (get_city_data i.city_input i.radio i.net).2 = .err m := by
    cases hn : i.net with
    | connError =>
        exact ⟨"Connection Error: Could not connect to the backend at " ++
          API_BASE_URL ++ ". Please ensure the server is running.",
          by simp [get_city_data, hep]⟩
    | timeout =>
        exact ⟨"The request to the backend timed out. " ++
          "The server might be busy or the request is complex.",
          by simp [get_city_data, hep]⟩
    | httpError st d =>
        exact ⟨"API Error: " ++ d.getD (httpErrStr st),
          by simp [get_city_data, hep]⟩
    | malformed msg =>
        exact ⟨"API Error: " ++ msg, by simp [get_city_data, hep]⟩
    | okBody b =>
        rw [hn] at hfail
        exact absurd hfail (by simp [NetOutcome.isFailure])
  refine ⟨m, ?_, ?_, ?_, ?_⟩ <;>
    rcases hkind with h | h <;>
      rw [h] at hm <;>
        simp [run, hcond, hm, render, h]

/-- C7 witness: a timed-out "Green Cover" submission for "Paris" on a
state holding a previous successful result ends with only the error
message stored and both panels in the placeholder state. -/
theorem failed_fetch_resets_witness :
    ∃ msg,
      (run demoFullState
          ⟨true, "Paris", "Green Cover", NetOutcome.timeout⟩).state.error =
        some msg
      ∧ (run demoFullState
          ⟨true, "Paris", "Green Cover", NetOutcome.timeout⟩).state.metrics =
        none
      ∧ (run demoFullState
          ⟨true, "Paris", "Green Cover",
            NetOutcome.timeout⟩).state.map_data = none
      ∧ (run demoFullState
          ⟨true, "Paris", "Green Cover", NetOutcome.timeout⟩).page =
        Page.dashboard (some msg) false false :=
  failed_fetch_resets demoFullState
    ⟨true, "Paris", "Green Cover", NetOutcome.timeout⟩
    rfl (by decide) (Or.inl rfl) rfl

/-- C10 (implicit): a form submission with empty city text is a no-op on
the session fields `city`, `metrics`, `map_data` and `error`, and issues
no fetch. -/
theorem empty_city_noop (s : SessionState) (i : RunInput)
    (h : i.city_input = "") :
    (run s i).networkCalled = false
    ∧ (run s i).state.city = s.city
    ∧ (run s i).state.metrics = s.metrics
    ∧ (run s i).state.map_data = s.map_data
    ∧ (run s i).state.error = s.error := by
  unfold run
  simp [h]

/-- C10 witness: submitting an empty city on a state holding a previous
result changes none of the four fields and issues no call. -/
theorem empty_city_noop_witness :
    (run demoFullState
        ⟨true, "", "Heat Map", NetOutcome.timeout⟩).networkCalled = false
    ∧ (run demoFullState
        ⟨true, "", "Heat Map", NetOutcome.timeout⟩).state.city =
      demoFullState.city
    ∧ (run demoFullState
        ⟨true, "", "Heat Map", NetOutcome.timeout⟩).state.metrics =
      demoFullState.metrics
    ∧ (run demoFullState
        ⟨true, "", "Heat Map", NetOutcome.timeout⟩).state.map_data =
      demoFullState.map_data
    ∧ (run demoFullState
        ⟨true, "", "Heat Map", NetOutcome.timeout⟩).state.error =
      demoFullState.error :=
  empty_city_noop demoFullState ⟨true, "", "Heat Map", NetOutcome.timeout⟩ rfl
